import Mathlib

/-! Shallow embedding of the heatwave-day pipeline of src/reproduce_6_3_6.py.

Temperatures are rationals; a missing value (NaN in the source arrays) is
modelled as Option.none.  A comparison against a missing value is false,
matching the IEEE NaN comparison semantics of numpy/xarray.  Time is an
index 0, 1, ..., T-1 along the date axis of the seasonal array; grid cells
are an abstract type parameter, since every operation studied here acts
cellwise.
-/

namespace Repro636

variable {Cell : Type}

/-- Elementwise exceedance comparison of line 191,
exceed = may_sep.groupby(time.dayofyear) > thresholds:
xarray compares each value with the threshold of its day of year using
strict greater-than; NaN compares false. -/
def exceedFlag (temp : Option ℚ) (threshold : ℚ) : Bool :=
  match temp with
  | none => false
  | some x => decide (threshold < x)

/-- Exceedance field: day t of the seasonal array at cell c exceeds the
threshold of its day-of-year.  doy maps an array position to its calendar
day-of-year, as time.dayofyear does for the seasonal selection. -/
def exceedDay (temp : ℕ → Cell → Option ℚ) (thresholds : ℕ → Cell → ℚ)
    (doy : ℕ → ℕ) (t : ℕ) (c : Cell) : Bool :=
  exceedFlag (temp t c) (thresholds (doy t) c)

/-- rolling(time=w, min_periods=w).sum() at position t of a boolean series:
none (NaN) when fewer than w values are available, otherwise the number of
true entries in the window of indices t-w+1 .. t. -/
def rollingSum (e : ℕ → Bool) (w t : ℕ) : Option ℕ :=
  if w ≤ t + 1 then
    some (((List.range w).map (fun s => if e (t - s) then 1 else 0)).sum)
  else
    none

/-- end_of_runs of line 203: the rolling w-day sum equals w, with NaN
(an incomplete window) comparing false. -/
def endOfRuns (e : ℕ → Bool) (w t : ℕ) : Bool :=
  match rollingSum e w t with
  | none => false
  | some s => decide (s = w)

/-- Shift-and-OR loop of lines 206-208: a day is marked when some
end-of-run flag lies at offset 0 .. w-1 ahead of it; shifting past the end
of the T-day array yields NaN, filled with False. -/
def heatwaveFromExceed (T : ℕ) (e : ℕ → Bool) (w t : ℕ) : Bool :=
  (List.range w).any (fun s => decide (t + s < T) && endOfRuns e w (t + s))

/-- identify_heatwave_days of lines 180-211: exceedance flags from the
seasonal temperatures and the day-of-year thresholds, then run detection
with minimum run length min_run_length along the T-day date axis. -/
def identify_heatwave_days (T : ℕ) (temp : ℕ → Cell → Option ℚ)
    (thresholds : ℕ → Cell → ℚ) (doy : ℕ → ℕ) (min_run_length : ℕ)
    (t : ℕ) (c : Cell) : Bool :=
  heatwaveFromExceed T (fun u => exceedDay temp thresholds doy u c)
    min_run_length t

/-- A list of 0/1 indicators sums to at most its length. -/
lemma indicator_sum_le (f : ℕ → Bool) (l : List ℕ) :
    ((l.map (fun s => if f s then 1 else 0)).sum) ≤ l.length := by
  induction l with
  | nil => simp
  | cons a l ih =>
      by_cases h : f a <;> simp [h] <;> omega

/-- A list of 0/1 indicators sums to its length exactly when every
indicator is 1. -/
lemma indicator_sum_eq_length_iff (f : ℕ → Bool) (l : List ℕ) :
    ((l.map (fun s => if f s then 1 else 0)).sum = l.length) ↔
      ∀ s ∈ l, f s = true := by
  induction l with
  | nil => simp
  | cons a l ih =>
      simp only [List.map_cons, List.sum_cons, List.length_cons,
        List.forall_mem_cons]
      by_cases h : f a
      · simp only [h, if_true, true_and]
        constructor
        · intro hs
          exact ih.mp (by omega)
        · intro hall
          have hsum := ih.mpr hall
          omega
      · have hfa : f a = false := by
          cases hfa2 : f a
          · rfl
          · exact absurd hfa2 h
        have hle := indicator_sum_le f l
        simp [hfa]
        omega

/-- The end-of-run flag at t holds exactly when a full window is available
and every day of the window t-w+1 .. t is an exceedance day. -/
lemma endOfRuns_iff (e : ℕ → Bool) (w t : ℕ) :
    endOfRuns e w t = true ↔ w ≤ t + 1 ∧ ∀ s < w, e (t - s) = true := by
  unfold endOfRuns rollingSum
  by_cases h : w ≤ t + 1
  · simp only [h, if_true, decide_eq_true_eq, true_and]
    have h2 := indicator_sum_eq_length_iff (fun s => e (t - s)) (List.range w)
    simp only [List.length_range, List.mem_range] at h2
    exact h2
  · simp [h]

/-- Core correctness of the vectorized run detection: a day t is marked
exactly when it lies inside a run of at least w consecutive true flags
contained in the T-day record, provided w ≥ 1. -/
lemma heatwaveFromExceed_iff_run (T : ℕ) (e : ℕ → Bool) (w : ℕ)
    (hw : 1 ≤ w) (t : ℕ) :
    heatwaveFromExceed T e w t = true ↔
      ∃ i j, i ≤ t ∧ t ≤ j ∧ j < T ∧ w ≤ j + 1 - i ∧
        ∀ k, i ≤ k → k ≤ j → e k = true := by
  unfold heatwaveFromExceed
  rw [List.any_eq_true]
  constructor
  · rintro ⟨s, hs, hcond⟩
    rw [List.mem_range] at hs
    rw [Bool.and_eq_true, decide_eq_true_eq] at hcond
    obtain ⟨hlt, hend⟩ := hcond
    rw [endOfRuns_iff] at hend
    obtain ⟨hwin, hall⟩ := hend
    refine ⟨t + s + 1 - w, t + s, by omega, by omega, hlt, by omega, ?_⟩
    intro k hk1 hk2
    have hsk : t + s - k < w := by omega
    have hek := hall (t + s - k) hsk
    have hkeq : t + s - (t + s - k) = k := by omega
    rwa [hkeq] at hek
  · rintro ⟨i, j, hit, htj, hjT, hwij, hall⟩
    have hij : i + w - 1 ≤ j := by omega
    by_cases hcase : i + w - 1 ≤ t
    · refine ⟨0, List.mem_range.mpr (by omega), ?_⟩
      rw [Bool.and_eq_true, decide_eq_true_eq]
      refine ⟨by omega, ?_⟩
      rw [endOfRuns_iff]
      refine ⟨by omega, ?_⟩
      intro s hsw
      exact hall (t + 0 - s) (by omega) (by omega)
    · refine ⟨i + w - 1 - t, List.mem_range.mpr (by omega), ?_⟩
      rw [Bool.and_eq_true, decide_eq_true_eq]
      have hteq : t + (i + w - 1 - t) = i + w - 1 := by omega
      rw [hteq]
      refine ⟨by omega, ?_⟩
      rw [endOfRuns_iff]
      refine ⟨by omega, ?_⟩
      intro s hsw
      exact hall (i + w - 1 - s) (by omega) (by omega)

/-- Claim C1: for every seasonal exceedance sequence at a fixed grid cell
and every minimum run length N ≥ 1, identify_heatwave_days marks a day
true exactly when that day lies inside a run of at least N consecutive
exceedance days contained in the T-day record.  In particular (N = 6) a
block of exactly 7 consecutive exceedance days yields all 7 days flagged
and nothing outside, and a block of exactly 5 yields no flagged day. -/
theorem claim_C1_heatwave_iff_run (T : ℕ)
    (temp : ℕ → Cell → Option ℚ) (thresholds : ℕ → Cell → ℚ)
    (doy : ℕ → ℕ) (N : ℕ) (hN : 1 ≤ N) (t : ℕ) (c : Cell) :
    identify_heatwave_days T temp thresholds doy N t c = true ↔
      ∃ i j, i ≤ t ∧ t ≤ j ∧ j < T ∧ N ≤ j + 1 - i ∧
        ∀ k, i ≤ k → k ≤ j → exceedDay temp thresholds doy k c = true :=
  heatwaveFromExceed_iff_run T _ N hN t

/-- A 9-day synthetic record at one cell: days 1..7 are 30 degrees, the
rest are 10 degrees, against a constant threshold of 20 degrees, so days
1..7 form a block of exactly 7 consecutive exceedance days. -/
def tempBlock7 : ℕ → Unit → Option ℚ :=
  fun t _ => some (if 1 ≤ t ∧ t ≤ 7 then 30 else 10)

/-- Constant threshold field of 20 degrees. -/
def thrConst : ℕ → Unit → ℚ := fun _ _ => 20

theorem claim_C1_witness :
    1 ≤ 6 ∧
      (identify_heatwave_days 9 tempBlock7 thrConst (fun t => t) 6 1 ()
          = true ↔
        ∃ i j, i ≤ 1 ∧ 1 ≤ j ∧ j < 9 ∧ 6 ≤ j + 1 - i ∧
          ∀ k, i ≤ k → k ≤ j →
            exceedDay tempBlock7 thrConst (fun t => t) k () = true) :=
  ⟨by decide,
    claim_C1_heatwave_iff_run 9 tempBlock7 thrConst (fun t => t) 6
      (by decide) 1 ()⟩

/-- Counterexample to claim C2 as stated: a day whose temperature exactly
equals its day-of-year threshold is NOT an exceedance day, although the
claim says temperature ≥ threshold should count; line 191 of the source
uses strict greater-than. -/
theorem claim_C2_counterexample :
    exceedDay (fun _ _ => some 20) (fun _ _ => 20) (fun t => t) 0 ()
        = false ∧
      (20 : ℚ) ≥ 20 :=
  ⟨by decide, by norm_num⟩

/-- Claim C2 (amended): the exceedance flag is true iff the temperature at
that day and cell is present (not missing) and strictly greater than the
threshold for the day-of-year of that cell; equality does not count. -/
theorem claim_C2_exceed_iff_strict (temp : ℕ → Cell → Option ℚ)
    (thresholds : ℕ → Cell → ℚ) (doy : ℕ → ℕ) (t : ℕ) (c : Cell) :
    exceedDay temp thresholds doy t c = true ↔
      ∃ x, temp t c = some x ∧ thresholds (doy t) c < x := by
  cases h : temp t c with
  | none => simp [exceedDay, exceedFlag, h]
  | some x => simp [exceedDay, exceedFlag, h]

/-- Claim C3: at every (day, cell) position the heatwave flag returned by
identify_heatwave_days implies the exceedance flag at that same position:
no day is flagged unless that day itself exceeds its own threshold. -/
theorem claim_C3_heatwave_implies_exceed (T : ℕ)
    (temp : ℕ → Cell → Option ℚ) (thresholds : ℕ → Cell → ℚ)
    (doy : ℕ → ℕ) (N t : ℕ) (c : Cell)
    (h : identify_heatwave_days T temp thresholds doy N t c = true) :
    exceedDay temp thresholds doy t c = true := by
  unfold identify_heatwave_days heatwaveFromExceed at h
  rw [List.any_eq_true] at h
  obtain ⟨s, hs, hcond⟩ := h
  rw [List.mem_range] at hs
  rw [Bool.and_eq_true, decide_eq_true_eq] at hcond
  obtain ⟨hlt, hend⟩ := hcond
  rw [endOfRuns_iff] at hend
  obtain ⟨hwin, hall⟩ := hend
  have hes := hall s hs
  have heq : t + s - s = t := by omega
  rwa [heq] at hes

theorem claim_C3_witness :
    exceedDay tempBlock7 thrConst (fun t => t) 3 () = true :=
  claim_C3_heatwave_implies_exceed 9 tempBlock7 thrConst (fun t => t) 6 3 ()
    (by decide)

/-- Claim C6: a position t with fewer than N days available up to and
including t (that is, t < N - 1) is never a run-end: the end-of-run flag
there is false regardless of the exceedance values, because the rolling
sum with min_periods = N is missing on incomplete windows. -/
theorem claim_C6_short_window_not_run_end (e : ℕ → Bool) (N t : ℕ)
    (h : t < N - 1) :
    endOfRuns e N t = false := by
  have hcond : ¬ (N ≤ t + 1) := by omega
  simp [endOfRuns, rollingSum, hcond]

theorem claim_C6_witness :
    endOfRuns (fun _ => true) 6 3 = false :=
  claim_C6_short_window_not_run_end (fun _ => true) 6 3 (by decide)

/-- valid_land of line 88: a cell is valid land when the (land-masked)
temperature at the first time index is not missing. -/
def valid_land (temp_data : ℕ → Cell → Option ℚ) (c : Cell) : Bool :=
  (temp_data 0 c).isSome

/-- The three boolean masks returned by build_region_masks for region us. -/
structure RegionMasksUS (Cell : Type) where
  west : Cell → Bool
  centralEast : Cell → Bool
  us48 : Cell → Bool

/-- build_region_masks of lines 82-113 for region us: split at longitude
-105 degrees (west strictly below, central-east at or above), the US48
base mask all-ones, each mask then ANDed with the valid-land mask. -/
def build_region_masks_us (temp_data : ℕ → Cell → Option ℚ)
    (lon : Cell → ℚ) : RegionMasksUS Cell where
  west := fun c => decide (lon c < -105) && valid_land temp_data c
  centralEast := fun c => decide (-105 ≤ lon c) && valid_land temp_data c
  us48 := fun c => true && valid_land temp_data c

/-- build_region_masks of lines 115-118 for region nh: the single NH mask
is the valid-land mask. -/
def build_region_mask_nh (temp_data : ℕ → Cell → Option ℚ)
    (c : Cell) : Bool :=
  valid_land temp_data c

/-- Claim C4: pointwise at every cell, the US48 mask equals the
disjunction of the West and Central-East masks, and their conjunction is
everywhere false (strict split at -105 degrees, all restricted to land). -/
theorem claim_C4_us_masks_partition (temp_data : ℕ → Cell → Option ℚ)
    (lon : Cell → ℚ) (c : Cell) :
    (build_region_masks_us temp_data lon).us48 c =
        ((build_region_masks_us temp_data lon).west c ||
          (build_region_masks_us temp_data lon).centralEast c) ∧
      ((build_region_masks_us temp_data lon).west c &&
        (build_region_masks_us temp_data lon).centralEast c) = false := by
  unfold build_region_masks_us
  rcases lt_or_le (lon c) (-105) with h | h
  · have h2 : ¬ (-105 ≤ lon c) := not_le.mpr h
    by_cases hv : valid_land temp_data c <;> simp [h, h2, hv]
  · have h2 : ¬ (lon c < -105) := not_lt.mpr h
    by_cases hv : valid_land temp_data c <;> simp [h, h2, hv]

/-- An input dataset: each of the two expected variables may be absent.
The land mask variable carries a time dimension, of which the source only
reads index 0. -/
structure Dataset (Cell : Type) where
  temperature : Option (ℕ → Cell → Option ℚ)
  land_mask : Option (ℕ → Cell → ℚ)

/-- Lines 69-70: temperature.where(land_mask > 0 at the first time index);
cells failing the mask become missing at every date. -/
def land_only (temp : ℕ → Cell → Option ℚ) (lm : ℕ → Cell → ℚ)
    (t : ℕ) (c : Cell) : Option ℚ :=
  if 0 < lm 0 c then temp t c else none

/-- load_temperature_data of lines 43-77: raise a KeyError naming the
missing variable when either expected variable is absent, otherwise return
the land-masked temperatures.  The error strings elide the quotation marks
that the source puts around the variable name. -/
def load_temperature_data (ds : Dataset Cell) :
    Except String (ℕ → Cell → Option ℚ) :=
  match ds.temperature with
  | none => Except.error "Dataset missing variable temperature"
  | some temp =>
    match ds.land_mask with
    | none => Except.error "Dataset missing variable land_mask"
    | some lm => Except.ok (land_only temp lm)

/-- Claim C9: load_temperature_data fails with a missing-variable error
iff the dataset lacks the temperature variable or lacks the land_mask
variable; when both are present it returns the temperature field with
non-land cells set to missing, and raises no error. -/
theorem claim_C9_load_missing_variable (ds : Dataset Cell) :
    ((∃ e, load_temperature_data ds = Except.error e) ↔
        ds.temperature = none ∨ ds.land_mask = none) ∧
      ∀ temp lm, ds.temperature = some temp → ds.land_mask = some lm →
        load_temperature_data ds = Except.ok (land_only temp lm) := by
  obtain ⟨otemp, olm⟩ := ds
  cases otemp <;> cases olm <;> simp [load_temperature_data]

/-- A dataset lacking the temperature variable. -/
def dsMissingTemp : Dataset Unit :=
  { temperature := none, land_mask := some (fun _ _ => 1) }

/-- A constant 25-degree temperature variable. -/
def tempFull : ℕ → Unit → Option ℚ := fun _ _ => some 25

/-- An all-land (everywhere 1) land-mask variable. -/
def lmFull : ℕ → Unit → ℚ := fun _ _ => 1

/-- A dataset holding both expected variables. -/
def dsFull : Dataset Unit :=
  { temperature := some tempFull, land_mask := some lmFull }

theorem claim_C9_witness :
    (∃ e, load_temperature_data dsMissingTemp = Except.error e) ∧
      load_temperature_data dsFull = Except.ok (land_only tempFull lmFull) :=
  ⟨(claim_C9_load_missing_variable dsMissingTemp).1.mpr (Or.inl rfl),
    (claim_C9_load_missing_variable dsFull).2 tempFull lmFull rfl rfl⟩

/-- The composition claim C10 is about: region masks built from the loaded
land-only temperature field. -/
def pipeline_masks_us (temp : ℕ → Cell → Option ℚ) (lm : ℕ → Cell → ℚ)
    (lon : Cell → ℚ) : RegionMasksUS Cell :=
  build_region_masks_us (land_only temp lm) lon

/-- Claim C10: membership of a cell in any region mask is decided solely
by the first time index: the masks are invariant under changing the
temperature and land-mask variables at any later time step, and a cell is
in a mask iff its land-mask value at time 0 is positive, its temperature
at time 0 is not missing, and it meets the longitude test of the region (US48
and NH have no longitude test). -/
theorem claim_C10_masks_first_time_only
    (temp temp2 : ℕ → Cell → Option ℚ) (lm lm2 : ℕ → Cell → ℚ)
    (lon : Cell → ℚ) (h1 : ∀ a, temp 0 a = temp2 0 a)
    (h2 : ∀ a, lm 0 a = lm2 0 a) (c : Cell) :
    ((pipeline_masks_us temp lm lon).west c =
        (pipeline_masks_us temp2 lm2 lon).west c ∧
      (pipeline_masks_us temp lm lon).centralEast c =
        (pipeline_masks_us temp2 lm2 lon).centralEast c ∧
      (pipeline_masks_us temp lm lon).us48 c =
        (pipeline_masks_us temp2 lm2 lon).us48 c ∧
      build_region_mask_nh (land_only temp lm) c =
        build_region_mask_nh (land_only temp2 lm2) c) ∧
    ((pipeline_masks_us temp lm lon).west c = true ↔
        0 < lm 0 c ∧ (temp 0 c).isSome = true ∧ lon c < -105) ∧
    ((pipeline_masks_us temp lm lon).centralEast c = true ↔
        0 < lm 0 c ∧ (temp 0 c).isSome = true ∧ -105 ≤ lon c) ∧
    ((pipeline_masks_us temp lm lon).us48 c = true ↔
        0 < lm 0 c ∧ (temp 0 c).isSome = true) ∧
    (build_region_mask_nh (land_only temp lm) c = true ↔
        0 < lm 0 c ∧ (temp 0 c).isSome = true) := by
  have hv : ∀ (tp : ℕ → Cell → Option ℚ) (l : ℕ → Cell → ℚ),
      valid_land (land_only tp l) c =
        (decide (0 < l 0 c) && (tp 0 c).isSome) := by
    intro tp l
    by_cases h : 0 < l 0 c <;> simp [valid_land, land_only, h]
  refine ⟨⟨?_, ?_, ?_, ?_⟩, ?_, ?_, ?_, ?_⟩ <;>
    simp only [pipeline_masks_us, build_region_masks_us,
      build_region_mask_nh, hv, h1 c, h2 c, Bool.true_and,
      Bool.and_eq_true, decide_eq_true_eq] <;>
    tauto

/-- Temperatures present only at time 0. -/
def tempOnlyT0 : ℕ → Unit → Option ℚ :=
  fun t _ => if t = 0 then some 25 else none

/-- Longitude west of the -105 degree split. -/
def lonWest110 : Unit → ℚ := fun _ => -110

theorem claim_C10_witness :
    ((pipeline_masks_us tempFull lmFull lonWest110).west () =
        (pipeline_masks_us tempOnlyT0 lmFull lonWest110).west ()) ∧
      ((pipeline_masks_us tempFull lmFull lonWest110).west () = true ↔
        0 < lmFull 0 () ∧ (tempFull 0 ()).isSome = true ∧
          lonWest110 () < -105) :=
  ⟨(claim_C10_masks_first_time_only tempFull tempOnlyT0 lmFull lmFull
      lonWest110 (fun _ => rfl) (fun _ => rfl) ()).1.1,
    (claim_C10_masks_first_time_only tempFull tempOnlyT0 lmFull lmFull
      lonWest110 (fun _ => rfl) (fun _ => rfl) ()).2.1⟩

/-- groupby(time.year).sum() of line 221 at one cell: the number of
flagged heatwave days with calendar year y among the T array positions. -/
def annual_count (T : ℕ) (year : ℕ → ℤ) (heatwave : ℕ → Cell → Bool)
    (y : ℤ) (c : Cell) : ℕ :=
  ((List.range T).filter (fun t => year t == y)).countP
    (fun t => heatwave t c)

/-- Lines 226-229 for one region and one year: where(mask) keeps the
annual count of each masked cell and puts missing elsewhere, then the
mean over cells skips missing entries; the mean of no values is missing
(NaN), not zero and not an exception. -/
def aggregate_annual_per_region (cells : List Cell) (T : ℕ)
    (year : ℕ → ℤ) (heatwave : ℕ → Cell → Bool) (mask : Cell → Bool)
    (y : ℤ) : Option ℚ :=
  let vals := cells.filterMap (fun c =>
    if mask c then some ((annual_count T year heatwave y c : ℚ)) else none)
  if vals = [] then none else some (vals.sum / vals.length)

/-- Keeping a value exactly on the masked cells is filtering then mapping. -/
lemma filterMap_mask_eq_map_filter (cells : List Cell) (mask : Cell → Bool)
    (f : Cell → ℚ) :
    cells.filterMap (fun c => if mask c then some (f c) else none) =
      (cells.filter mask).map f := by
  induction cells with
  | nil => rfl
  | cons a l ih =>
      by_cases h : mask a <;>
        simp [List.filterMap_cons, List.filter_cons, h, ih]

/-- Claim C7: a (region, year) whose mask selects zero cells with valid
annual counts yields a missing value, not zero and not an exception, while
a mask selecting at least one cell yields the mean over exactly the valid
masked cells (counts from the boolean heatwave field are always valid). -/
theorem claim_C7_empty_region_no_data (cells : List Cell) (T : ℕ)
    (year : ℕ → ℤ) (heatwave : ℕ → Cell → Bool) (mask : Cell → Bool)
    (y : ℤ) :
    (cells.filter mask = [] →
        aggregate_annual_per_region cells T year heatwave mask y = none) ∧
      (cells.filter mask ≠ [] →
        aggregate_annual_per_region cells T year heatwave mask y =
          some (((cells.filter mask).map
                (fun c => (annual_count T year heatwave y c : ℚ))).sum /
              ((cells.filter mask).length : ℚ))) := by
  unfold aggregate_annual_per_region
  rw [filterMap_mask_eq_map_filter]
  constructor
  · intro h
    rw [if_pos (by simp [h])]
  · intro h
    rw [if_neg (by simpa using h)]
    simp [List.length_map]

/-- A concrete heatwave field on a two-cell grid (cells 0 and 1) over a
three-day record: day t is a heatwave day at cell c when t ≤ c. -/
def hwTwoCells : ℕ → ℕ → Bool := fun t c => decide (t ≤ c)

theorem claim_C7_witness :
    aggregate_annual_per_region [0, 1] 3 (fun _ => 2000) hwTwoCells
        (fun _ => false) 2000 = none ∧
      aggregate_annual_per_region [0, 1] 3 (fun _ => 2000) hwTwoCells
        (fun _ => true) 2000 = some (3 / 2) := by
  constructor
  · exact (claim_C7_empty_region_no_data [0, 1] 3 (fun _ => 2000)
      hwTwoCells (fun _ => false) 2000).1 (by decide)
  · have h := (claim_C7_empty_region_no_data [0, 1] 3 (fun _ => 2000)
      hwTwoCells (fun _ => true) 2000).2 (by decide)
    rw [h]
    have h0 : annual_count 3 (fun _ => 2000) hwTwoCells 2000 0 = 1 := by
      decide
    have h1 : annual_count 3 (fun _ => 2000) hwTwoCells 2000 1 = 2 := by
      decide
    norm_num [List.filter, h0, h1]

/-- trailing_average of lines 241-244, i.e. pandas
Series.rolling(window, min_periods=1).mean(): position i of the output is
the mean of the non-missing entries among positions max(0, i-window+1)
through i, and missing when the window holds no valid entry. -/
def trailing_average (values : List (Option ℚ)) (window : ℕ) :
    List (Option ℚ) :=
  (List.range values.length).map (fun i =>
    let vals := ((values.take (i + 1)).drop (i + 1 - window)).filterMap id
    if vals = [] then none else some (vals.sum / vals.length))

/-- Dropping the some wrappers from a constant list of present values. -/
lemma filterMap_id_replicate (m : ℕ) (v : ℚ) :
    (List.replicate m (some v)).filterMap id = List.replicate m v := by
  induction m with
  | zero => rfl
  | succ m ih => simp [List.replicate_succ, ih]

/-- Claim C8: trailing_average preserves the length of the series, and on
a constant series of value v of length n ≥ 15 every position at or after
the fifteenth (index 14 and later) equals v. -/
theorem claim_C8_trailing_average (values : List (Option ℚ))
    (window : ℕ) (n : ℕ) (v : ℚ) (i : ℕ) (h14 : 14 ≤ i) (hin : i < n) :
    (trailing_average values window).length = values.length ∧
      (trailing_average (List.replicate n (some v)) 15)[i]? =
        some (some v) := by
  constructor
  · simp [trailing_average]
  · unfold trailing_average
    rw [List.getElem?_map, List.length_replicate,
      List.getElem?_range hin, Option.map_some']
    have htake : (List.replicate n (some v)).take (i + 1) =
        List.replicate (i + 1) (some v) := by
      rw [List.take_replicate]
      congr 1
      omega
    rw [htake, List.drop_replicate]
    have h15 : i + 1 - (i + 1 - 15) = 15 := by omega
    rw [h15, filterMap_id_replicate]
    rw [if_neg (by simp)]
    simp only [List.sum_replicate, List.length_replicate, nsmul_eq_mul]
    norm_num

theorem claim_C8_witness :
    (trailing_average (List.replicate 20 (some (3 : ℚ))) 15).length =
        (List.replicate 20 (some (3 : ℚ))).length ∧
      (trailing_average (List.replicate 20 (some (3 : ℚ))) 15)[16]? =
        some (some 3) :=
  claim_C8_trailing_average (List.replicate 20 (some 3)) 15 20 3 16
    (by decide) (by decide)

/-- Linear-interpolation quantile at q = 0.9 over a list of values: sort
ascending, set h = 0.9 * (n - 1), and interpolate between the entries at
positions floor(h) and floor(h) + 1 with weight h - floor(h); missing when
the list is empty.  This is the default interpolation of the quantile call
at line 171. -/
def quantile09 (xs : List ℚ) : Option ℚ :=
  if xs.length = 0 then none
  else
    let s := xs.insertionSort (· ≤ ·)
    let k : ℕ := 9 * (xs.length - 1) / 10
    let g : ℚ := 9 * ((xs.length : ℚ) - 1) / 10 - (k : ℚ)
    let a := s.getD k 0
    some (a + g * (s.getD (k + 1) a - a))

/-- compute_daily_90th_thresholds of lines 163-177: group the seasonal
array positions by day-of-year, pool the values of all years at one cell,
drop missing values (skipna=True), and take the 90th percentile. -/
def compute_daily_90th_thresholds (T : ℕ) (doy : ℕ → ℕ)
    (temp : ℕ → Cell → Option ℚ) (d : ℕ) (c : Cell) : Option ℚ :=
  quantile09 (((List.range T).filter (fun t => doy t == d)).filterMap
    (fun t => temp t c))

/-- Claim C5: for a (day-of-year, cell) pair with at least one non-missing
pooled observation, the threshold is the standard linear-interpolation
90th percentile of the pooled observations of all years with missing
values dropped: there is a sorted permutation ys of the valid pooled
values whose floor(0.9*(n-1)) entry, interpolated toward the next entry
with the fractional weight, is the returned value. -/
theorem claim_C5_thresholds_linear_quantile (T : ℕ) (doy : ℕ → ℕ)
    (temp : ℕ → Cell → Option ℚ) (d : ℕ) (c : Cell) (xs : List ℚ)
    (hxs : xs = ((List.range T).filter (fun t => doy t == d)).filterMap
      (fun t => temp t c))
    (hne : xs ≠ []) :
    ∃ ys : List ℚ, List.Perm xs ys ∧ ys.Sorted (· ≤ ·) ∧
      compute_daily_90th_thresholds T doy temp d c =
        some (ys.getD (9 * (xs.length - 1) / 10) 0 +
          (9 * ((xs.length : ℚ) - 1) / 10 -
              ((9 * (xs.length - 1) / 10 : ℕ) : ℚ)) *
            (ys.getD (9 * (xs.length - 1) / 10 + 1)
                (ys.getD (9 * (xs.length - 1) / 10) 0) -
              ys.getD (9 * (xs.length - 1) / 10) 0)) := by
  refine ⟨xs.insertionSort (· ≤ ·), (List.perm_insertionSort _ xs).symm,
    List.sorted_insertionSort _ xs, ?_⟩
  unfold compute_daily_90th_thresholds quantile09
  rw [← hxs]
  rw [if_neg (by simpa using hne)]

/-- A one-cell record of four seasonal days sharing one day-of-year, with
values 1, missing, 3, 2, so the pooled valid observations are 1, 3, 2. -/
def tempQuant : ℕ → Unit → Option ℚ :=
  fun t _ =>
    if t = 0 then some 1
    else if t = 1 then none
    else if t = 2 then some 3
    else some 2

theorem claim_C5_witness :
    ∃ ys : List ℚ, List.Perm [1, 3, 2] ys ∧ ys.Sorted (· ≤ ·) ∧
      compute_daily_90th_thresholds 4 (fun _ => 150) tempQuant 150 () =
        some (ys.getD (9 * (([1, 3, 2] : List ℚ).length - 1) / 10) 0 +
          (9 * ((([1, 3, 2] : List ℚ).length : ℚ) - 1) / 10 -
              ((9 * (([1, 3, 2] : List ℚ).length - 1) / 10 : ℕ) : ℚ)) *
            (ys.getD (9 * (([1, 3, 2] : List ℚ).length - 1) / 10 + 1)
                (ys.getD (9 * (([1, 3, 2] : List ℚ).length - 1) / 10) 0) -
              ys.getD (9 * (([1, 3, 2] : List ℚ).length - 1) / 10) 0)) :=
  claim_C5_thresholds_linear_quantile 4 (fun _ => 150) tempQuant 150 ()
    [1, 3, 2] (by decide) (by decide)

end Repro636
